import Mathlib

/-!
Verification of the client-side resource cache and mutation-consistency
layer of the customer-management UI (`src/pages/index.tsx`).

The page's handlers (`fetcher`, `handleCreate`, `handleDelete`) are embedded
as pure Lean functions.  Asynchronous execution is shallowly embedded as the
ordered list of externally visible events (remote store calls and cache
invalidations) each handler emits, in program order: an `await` in the
source corresponds to the next event appearing later in the list.  The SWR
cache (`useSWR` / `mutate`) and the `/api/customers` route are not part of
the source tree; where a claim depends on them they are modelled from the
specification.
-/

namespace CustomerPage

/-- The `Customer` record, from the exported `Customer` type of the page.
The optional `businessName` field is carried as a string; the source form
state initialises it to `""` and treats the empty string as absent. -/
structure Customer where
  firstName : String
  lastName : String
  businessName : String
  email : String
deriving Repr, DecidableEq

/-- Alias for `Customer[]`. -/
abbrev Customers := List Customer

/-- The `ApiError` type of the page: the JSON error body of the API. -/
structure ApiError where
  code : String
  message : String
deriving Repr, DecidableEq

/-- Response to the GET list request, as seen by `fetcher`: either an ok
response whose JSON body is the customer list, or a non-ok response whose
JSON body is an `ApiError`. -/
inductive ListResponse where
  | ok (data : Customers)
  | err (data : ApiError)
deriving Repr, DecidableEq

/-- Response to a POST/DELETE request, as seen by `handleCreate` /
`handleDelete`: either ok, or non-ok with a JSON body that may or may not
carry an `ApiError` (the source guards with `msg?.message`). -/
inductive MutationResponse where
  | ok
  | err (body : Option ApiError)
deriving Repr, DecidableEq

/-- The SWR fetcher of the page:
`const res = await fetch(url); const data = await res.json();
if (!res.ok) throw data; return data;`
A thrown value is an `Except.error`; the thrown body is passed on verbatim. -/
def fetcher : ListResponse → Except ApiError Customers
  | ListResponse.ok data => Except.ok data
  | ListResponse.err data => Except.error data

/-- Externally visible events a handler can emit, in program order:
remote store calls and SWR cache invalidation (`mutate('/api/customers')`). -/
inductive Event where
  | storeCreate (firstName lastName businessName email : String)
  | storeDelete (email : String)
  | invalidate
deriving Repr, DecidableEq

/-- Outcome of `handleCreate`: early return after the validation alert,
a thrown/alerted error message, or success. -/
inductive CreateResult where
  | validationError
  | failure (message : String)
  | success
deriving Repr, DecidableEq

/-- Outcome of `handleDelete`: early return when the confirmation prompt is
declined, a thrown/alerted error message, or success. -/
inductive DeleteResult where
  | cancelled
  | failure (message : String)
  | success
deriving Repr, DecidableEq

/-- JavaScript `String.prototype.trim()`: removes leading and trailing
whitespace. -/
def jsTrim (s : String) : String :=
  ⟨((s.data.dropWhile Char.isWhitespace).reverse.dropWhile
      Char.isWhitespace).reverse⟩

/-- The validation test of `handleCreate`:
`if (!firstName.trim() || !lastName.trim() || !email.trim())` — the empty
string is the only falsy string, so the input passes validation exactly
when this returns `true`. -/
def createValid (firstName lastName email : String) : Bool :=
  !(jsTrim firstName == "" || jsTrim lastName == "" || jsTrim email == "")

/-- Embedding of `msg?.message || dflt`: the message surfaced from an error body —
the body's `message` unless the body is absent or the message empty
(falsy), in which case the default string. -/
def errorMessage (dflt : String) : Option ApiError → String
  | some e => if e.message == "" then dflt else e.message
  | none => dflt

/-- The `handleCreate` handler, given the form state and the response the remote store
would give to the POST.  Returns the outcome together with the ordered list
of events the call emits.  Validation failure returns before any network
traffic; a non-ok response throws before `mutate` is reached; on an ok
response `await mutate('/api/customers')` runs after the response check. -/
def handleCreate (firstName lastName businessName email : String)
    (resp : MutationResponse) : CreateResult × List Event :=
  if !(createValid firstName lastName email) then
    (CreateResult.validationError, [])
  else
    match resp with
    | MutationResponse.ok =>
        (CreateResult.success,
         [Event.storeCreate firstName lastName businessName email,
          Event.invalidate])
    | MutationResponse.err body =>
        (CreateResult.failure (errorMessage "Error adding new customer" body),
         [Event.storeCreate firstName lastName businessName email])

/-- The `handleDelete` handler, given the customer email, the user's answer to the
`window.confirm` prompt, and the response the remote store would give to
the DELETE.  Declining the prompt returns before any network traffic; a
non-ok response throws before `mutate`; on an ok response
`await mutate('/api/customers')` runs after the response check. -/
def handleDelete (custEmail : String) (confirmed : Bool)
    (resp : MutationResponse) : DeleteResult × List Event :=
  if !confirmed then
    (DeleteResult.cancelled, [])
  else
    match resp with
    | MutationResponse.ok =>
        (DeleteResult.success, [Event.storeDelete custEmail, Event.invalidate])
    | MutationResponse.err body =>
        (DeleteResult.failure (errorMessage "Error deleting customer" body),
         [Event.storeDelete custEmail])

/-- Returns `true` when the event is a remote mutation call (POST or DELETE). -/
def Event.isMutation : Event → Bool
  | Event.storeCreate _ _ _ _ => true
  | Event.storeDelete _ => true
  | Event.invalidate => false

/-- Scans a trace, `seen` recording whether a remote mutation call has
already occurred: `true` iff every `invalidate` in the trace is strictly
preceded by a remote mutation call. -/
def invalidateAfterMutationFrom (seen : Bool) : List Event → Bool
  | [] => true
  | ev :: rest =>
      match ev with
      | Event.invalidate => seen && invalidateAfterMutationFrom seen rest
      | _ => invalidateAfterMutationFrom (seen || ev.isMutation) rest

/-- Returns `true` iff every `invalidate` in the trace comes strictly after some
remote mutation call. -/
def invalidateAfterMutation (tr : List Event) : Bool :=
  invalidateAfterMutationFrom false tr

/-- Freshness state of the cached resource (spec §3, `CachedResource`). -/
inductive Status where
  | idle
  | loading
  | resolved
  | failed
deriving Repr, DecidableEq

/-- Modelled from the spec: the SWR resource cache backing `useSWR` /
`mutate` is library code absent from the source tree; this is the
`CachedResource` state for the single customers key (spec §3, §4.1).
`inflight` records whether a remote list call is pending, `queued` records
an invalidation issued while one was in flight (its follow-up fetch starts
when the in-flight one settles), and `listCalls` counts remote list
invocations. -/
structure CacheState where
  status : Status
  value : Option Customers
  error : Option ApiError
  inflight : Bool
  queued : Bool
  listCalls : Nat
deriving Repr, DecidableEq

/-- The cache entry before any subscriber attaches. -/
def initCache : CacheState :=
  { status := Status.idle, value := none, error := none,
    inflight := false, queued := false, listCalls := 0 }

/-- Modelled from the spec: `fetch(key)` of the absent SWR cache — if a
fetch is already in flight the caller attaches to it (single-flight);
otherwise the entry enters `loading` and one remote list call is issued. -/
def doFetch (s : CacheState) : CacheState :=
  if s.inflight then s
  else { s with status := Status.loading, inflight := true,
                listCalls := s.listCalls + 1 }

/-- Modelled from the spec: `read(key)` of the absent SWR cache — if no
entry exists yet (status `idle`) it creates one and triggers a fetch,
otherwise it returns the current snapshot unchanged. -/
def doRead (s : CacheState) : CacheState :=
  if s.status = Status.idle then doFetch s else s

/-- Modelled from the spec: `invalidate(key)` of the absent SWR cache
(`mutate('/api/customers')`) — triggers a fresh fetch regardless of
status; if one is in flight the follow-up fetch is queued to start when it
settles, so the invalidation is never absorbed by the in-flight fetch. -/
def doInvalidate (s : CacheState) : CacheState :=
  if s.inflight then { s with queued := true }
  else { s with status := Status.loading, inflight := true,
                listCalls := s.listCalls + 1 }

/-- Modelled from the spec: completion of the in-flight remote list call.
The response goes through the page's `fetcher`; an `ok` value resolves the
entry with exactly the returned list, an error marks it `failed` with the
thrown body.  A queued invalidation then starts its follow-up fetch. -/
def doSettle (s : CacheState) (resp : ListResponse) : CacheState :=
  if !s.inflight then s
  else
    let s₁ :=
      match fetcher resp with
      | Except.ok d =>
          { s with value := some d, status := Status.resolved,
                   error := none, inflight := false }
      | Except.error e =>
          { s with status := Status.failed, error := some e,
                   inflight := false }
    if s₁.queued then
      { s₁ with queued := false, status := Status.loading, inflight := true,
                listCalls := s₁.listCalls + 1 }
    else s₁

/-- A read-side command: a `read` subscription or an explicit `fetch`. -/
inductive ReadCmd where
  | read
  | fetch
deriving Repr, DecidableEq

/-- Applies one read-side command to the cache. -/
def applyRead (s : CacheState) : ReadCmd → CacheState
  | ReadCmd.read => doRead s
  | ReadCmd.fetch => doFetch s

/-- Applies a sequence of read-side commands to the cache. -/
def applyReads (s : CacheState) (cmds : List ReadCmd) : CacheState :=
  cmds.foldl applyRead s

/-- The cache effect of one handler event: `mutate('/api/customers')` is an
invalidation; remote store calls do not touch the cache (the coordinator
never writes cache values directly). -/
def applyEvent (s : CacheState) : Event → CacheState
  | Event.invalidate => doInvalidate s
  | _ => s

/-- The cache effect of a handler's whole event trace. -/
def applyTrace (s : CacheState) (tr : List Event) : CacheState :=
  tr.foldl applyEvent s

/-- Modelled from the spec: the `/api/customers` route's create operation
is absent from the source tree; per spec §6 a successful create appends
the new customer to the stored collection. -/
def storeCreateOp (store : Customers) (c : Customer) : Customers :=
  store ++ [c]

/-- The display name of a table row in `Home`:
`cust.businessName ? cust.businessName : firstName lastName` — the empty
string is falsy. -/
def displayName (c : Customer) : String :=
  if c.businessName == "" then c.firstName ++ " " ++ c.lastName
  else c.businessName

/-- The rows `Home` renders from the cached collection, in order: display
name and email per customer. -/
def renderRows (cs : Customers) : List (String × String) :=
  cs.map (fun c => (displayName c, c.email))

/-- Returns `true` exactly on the validation-failure outcome of
`handleCreate`. -/
def CreateResult.isValidationError : CreateResult → Bool
  | CreateResult.validationError => true
  | _ => false

/-- Returns `true` exactly on the success outcome of `handleCreate`. -/
def CreateResult.isSuccess : CreateResult → Bool
  | CreateResult.success => true
  | _ => false

/-- Returns `true` exactly on the success outcome of `handleDelete`. -/
def DeleteResult.isSuccess : DeleteResult → Bool
  | DeleteResult.success => true
  | _ => false

/-- A string all of whose characters are whitespace trims to the empty
string. -/
theorem jsTrim_eq_empty_of_all_whitespace (s : String)
    (h : s.data.all Char.isWhitespace = true) : jsTrim s = "" := by
  have hd : s.data.dropWhile Char.isWhitespace = [] := by
    rw [List.dropWhile_eq_nil_iff]
    intro x hx
    exact List.all_eq_true.mp h x hx
  simp [jsTrim, hd]


/-- Claim C1: for every mutation (create or remove), the cache
invalidation is issued strictly after the remote mutation call, within the
same sequential trace (never before, never concurrently); on a non-ok
response it is not issued at all, and on an ok response it is issued
whenever the mutation was actually attempted. -/
theorem create_delete_invalidate_ordering :
    ∀ (f l b e mail : String) (conf : Bool) (resp : MutationResponse)
      (body : Option ApiError),
    invalidateAfterMutation (handleCreate f l b e resp).2 = true ∧
    invalidateAfterMutation (handleDelete mail conf resp).2 = true ∧
    (handleCreate f l b e (MutationResponse.err body)).2.contains
      Event.invalidate = false ∧
    (handleDelete mail conf (MutationResponse.err body)).2.contains
      Event.invalidate = false ∧
    (handleCreate f l b e MutationResponse.ok).2.contains Event.invalidate
      = createValid f l e ∧
    (handleDelete mail conf MutationResponse.ok).2.contains Event.invalidate
      = conf := by
  intro f l b e mail conf resp body
  cases hv : createValid f l e <;> cases conf <;> cases resp <;>
    simp [handleCreate, handleDelete, hv, invalidateAfterMutation,
      invalidateAfterMutationFrom, Event.isMutation, List.contains]

/-- Claim C4, counterexample: with `firstName = " "` (non-empty), the
claim that non-empty fields never raise a validation error fails —
`handleCreate` rejects the input without contacting the store. -/
theorem create_validation_counterexample :
    ¬ (∀ (f l b e : String) (resp : MutationResponse),
        f ≠ "" → l ≠ "" → e ≠ "" →
        (handleCreate f l b e resp).1 ≠ CreateResult.validationError ∧
        (handleCreate f l b e resp).2.contains (Event.storeCreate f l b e)
          = true) := by
  intro h
  have h2 := h " " "B" "" "b@x.com" MutationResponse.ok
    (by decide) (by decide) (by decide)
  exact h2.1 (by decide)

/-- Claim C4, amended: create fails with a validation error exactly when
`firstName`, `lastName` or `email` is empty after trimming whitespace, in
which case the store is never contacted; otherwise no validation error is
raised and the store's create operation is invoked (`businessName` is
never validated — it is arbitrary on both sides). -/
theorem create_validation_trimmed :
    ∀ (f l b e : String) (resp : MutationResponse),
    (handleCreate f l b e resp).1.isValidationError = !(createValid f l e) ∧
    (handleCreate f l b e resp).2.contains (Event.storeCreate f l b e)
      = createValid f l e := by
  intro f l b e resp
  cases hv : createValid f l e <;> cases resp <;>
    simp [handleCreate, hv, CreateResult.isValidationError, List.contains]

/-- Claim C10: a create input whose `firstName`, `lastName` or `email`
consists only of whitespace characters is rejected as a validation
failure without contacting the remote store, because validation compares
the trimmed field against the empty string. -/
theorem whitespace_only_rejected :
    ∀ (f l b e : String) (resp : MutationResponse),
    (f.data.all Char.isWhitespace || l.data.all Char.isWhitespace
      || e.data.all Char.isWhitespace) = true →
    (handleCreate f l b e resp).1 = CreateResult.validationError ∧
    (handleCreate f l b e resp).2 = [] := by
  intro f l b e resp h
  have hv : createValid f l e = false := by
    rcases Bool.or_eq_true_iff.mp h with h1 | h2
    · rcases Bool.or_eq_true_iff.mp h1 with hf | hl
      · simp [createValid, jsTrim_eq_empty_of_all_whitespace f hf]
      · simp [createValid, jsTrim_eq_empty_of_all_whitespace l hl]
    · simp [createValid, jsTrim_eq_empty_of_all_whitespace e h2]
  simp [handleCreate, hv]

theorem whitespace_only_rejected_witness :
    ((("   " : String).data.all Char.isWhitespace
        || ("B" : String).data.all Char.isWhitespace
        || ("b@x.com" : String).data.all Char.isWhitespace) = true) ∧
    (handleCreate "   " "B" "" "b@x.com" MutationResponse.ok).1
      = CreateResult.validationError ∧
    (handleCreate "   " "B" "" "b@x.com" MutationResponse.ok).2 = [] :=
  ⟨by decide,
   whitespace_only_rejected "   " "B" "" "b@x.com" MutationResponse.ok
     (by decide)⟩

/-- Claim C9: declining the confirmation prompt of `handleDelete` emits
no remote call and no invalidation, and leaves the cache state (and hence
the remote store) untouched. -/
theorem decline_confirmation_no_effect :
    ∀ (mail : String) (resp : MutationResponse) (s : CacheState),
    (handleDelete mail false resp).1 = DeleteResult.cancelled ∧
    (handleDelete mail false resp).2 = [] ∧
    applyTrace s (handleDelete mail false resp).2 = s := by
  intro mail resp s
  simp [handleDelete, applyTrace]

/-- Claim C3: every create or remove call that does not succeed — by
validation, by declined confirmation, or by a remote error — leaves the
cache state exactly as it was before the call. -/
theorem failed_mutation_leaves_cache_unchanged :
    ∀ (f l b e mail : String) (conf : Bool) (resp : MutationResponse)
      (s : CacheState),
    ((handleCreate f l b e resp).1.isSuccess = false →
       applyTrace s (handleCreate f l b e resp).2 = s) ∧
    ((handleDelete mail conf resp).1.isSuccess = false →
       applyTrace s (handleDelete mail conf resp).2 = s) := by
  intro f l b e mail conf resp s
  cases hv : createValid f l e <;> cases conf <;> cases resp <;>
    simp [handleCreate, handleDelete, hv, CreateResult.isSuccess,
      DeleteResult.isSuccess, applyTrace, applyEvent]

theorem failed_mutation_leaves_cache_unchanged_witness :
    ((handleCreate "A" "B" "" "a@x.com"
        (MutationResponse.err (some ⟨"409", "duplicate email"⟩))).1.isSuccess
      = false ∧
     applyTrace initCache (handleCreate "A" "B" "" "a@x.com"
        (MutationResponse.err (some ⟨"409", "duplicate email"⟩))).2
      = initCache) ∧
    ((handleDelete "a@x.com"  true
        (MutationResponse.err (some ⟨"404", "not found"⟩))).1.isSuccess
      = false ∧
     applyTrace initCache (handleDelete "a@x.com" true
        (MutationResponse.err (some ⟨"404", "not found"⟩))).2
      = initCache) :=
  ⟨⟨by decide,
    (failed_mutation_leaves_cache_unchanged "A" "B" "" "a@x.com" "a@x.com"
      true (MutationResponse.err (some ⟨"409", "duplicate email"⟩))
      initCache).1 (by decide)⟩,
   ⟨by decide,
    (failed_mutation_leaves_cache_unchanged "A" "B" "" "a@x.com" "a@x.com"
      true (MutationResponse.err (some ⟨"404", "not found"⟩))
      initCache).2 (by decide)⟩⟩


/-- Once a fetch is in flight (status `loading`), further read-side
commands attach to it and leave the cache state unchanged. -/
theorem applyReads_fixed (cmds : List ReadCmd) :
    ∀ (s : CacheState), s.inflight = true → s.status = Status.loading →
    applyReads s cmds = s := by
  induction cmds with
  | nil => intro s _ _; rfl
  | cons c rest ih =>
      intro s h1 h2
      have hstep : applyRead s c = s := by
        cases c <;> simp [applyRead, doRead, doFetch, h1, h2]
      simpa [applyReads, hstep] using ih s h1 h2

/-- Claim C2: any non-empty sequence of read/fetch calls on the customers
key issued before the first fetch resolves invokes the remote list
operation exactly once, and when that single fetch settles every caller
observes the same resolved value. -/
theorem single_flight_dedup :
    ∀ (c : ReadCmd) (cmds : List ReadCmd) (d : Customers),
    (applyReads initCache (c :: cmds)).listCalls = 1 ∧
    (doSettle (applyReads initCache (c :: cmds)) (ListResponse.ok d)).value
      = some d ∧
    (doSettle (applyReads initCache (c :: cmds)) (ListResponse.ok d)).status
      = Status.resolved := by
  intro c cmds d
  have hfirst : applyRead initCache c
      = { status := Status.loading, value := none, error := none,
          inflight := true, queued := false, listCalls := 1 } := by
    cases c <;> simp [applyRead, doRead, doFetch, initCache]
  have hall : applyReads initCache (c :: cmds)
      = { status := Status.loading, value := none, error := none,
          inflight := true, queued := false, listCalls := 1 } := by
    have := applyReads_fixed cmds
      { status := Status.loading, value := none, error := none,
        inflight := true, queued := false, listCalls := 1 } rfl rfl
    simpa [applyReads, hfirst] using this
  rw [hall]
  simp [doSettle, fetcher]

/-- Claim C5: an invalidation issued while a fetch is in flight is never
absorbed by it — after the in-flight fetch settles, exactly one additional
remote list call has been issued and a fresh fetch is in flight. -/
theorem invalidate_during_flight_refetch :
    ∀ (s : CacheState) (resp : ListResponse),
    s.inflight = true →
    (doInvalidate s).listCalls = s.listCalls ∧
    (doSettle (doInvalidate s) resp).listCalls = s.listCalls + 1 ∧
    (doSettle (doInvalidate s) resp).inflight = true ∧
    (doSettle (doInvalidate s) resp).status = Status.loading := by
  intro s resp h
  cases resp <;> simp [doInvalidate, doSettle, fetcher, h]

theorem invalidate_during_flight_refetch_witness :
    ((doFetch initCache).inflight = true) ∧
    (doInvalidate (doFetch initCache)).listCalls
      = (doFetch initCache).listCalls ∧
    (doSettle (doInvalidate (doFetch initCache)) (ListResponse.ok [])).listCalls
      = (doFetch initCache).listCalls + 1 ∧
    (doSettle (doInvalidate (doFetch initCache)) (ListResponse.ok [])).inflight
      = true ∧
    (doSettle (doInvalidate (doFetch initCache)) (ListResponse.ok [])).status
      = Status.loading :=
  ⟨by decide,
   invalidate_during_flight_refetch (doFetch initCache) (ListResponse.ok [])
     (by decide)⟩

/-- Claim C6: after a successful create, the cache's next resolved value
is the collection re-fetched from the store, which contains the newly
created record; the handler itself never inserts the record into the
cache (its trace only triggers invalidation). -/
theorem create_success_refetch :
    ∀ (s : CacheState) (store : Customers) (f l b e : String),
    s.inflight = false →
    createValid f l e = true →
    (handleCreate f l b e MutationResponse.ok).1 = CreateResult.success ∧
    Event.invalidate ∈ (handleCreate f l b e MutationResponse.ok).2 ∧
    (doSettle (applyTrace s (handleCreate f l b e MutationResponse.ok).2)
        (ListResponse.ok (storeCreateOp store ⟨f, l, b, e⟩))).value
      = some (storeCreateOp store ⟨f, l, b, e⟩) ∧
    (⟨f, l, b, e⟩ : Customer) ∈ storeCreateOp store ⟨f, l, b, e⟩ := by
  intro s store f l b e hs hv
  refine ⟨by simp [handleCreate, hv], by simp [handleCreate, hv], ?_, ?_⟩
  · simp [handleCreate, hv, applyTrace, applyEvent, doInvalidate, hs,
      doSettle, fetcher]
    split <;> rfl
  · simp [storeCreateOp]

theorem create_success_refetch_witness :
    (((doSettle (doFetch initCache)
        (ListResponse.ok [⟨"A", "B", "", "a@x.com"⟩])).inflight = false) ∧
     createValid "C" "D" "c@x.com" = true) ∧
    ((handleCreate "C" "D" "" "c@x.com" MutationResponse.ok).1
        = CreateResult.success ∧
     Event.invalidate ∈ (handleCreate "C" "D" "" "c@x.com"
        MutationResponse.ok).2 ∧
     (doSettle (applyTrace (doSettle (doFetch initCache)
          (ListResponse.ok [⟨"A", "B", "", "a@x.com"⟩]))
          (handleCreate "C" "D" "" "c@x.com" MutationResponse.ok).2)
        (ListResponse.ok (storeCreateOp [⟨"A", "B", "", "a@x.com"⟩]
          ⟨"C", "D", "", "c@x.com"⟩))).value
      = some (storeCreateOp [⟨"A", "B", "", "a@x.com"⟩]
          ⟨"C", "D", "", "c@x.com"⟩) ∧
     (⟨"C", "D", "", "c@x.com"⟩ : Customer)
       ∈ storeCreateOp [⟨"A", "B", "", "a@x.com"⟩]
          ⟨"C", "D", "", "c@x.com"⟩) ∧
    (storeCreateOp [⟨"A", "B", "", "a@x.com"⟩]
        ⟨"C", "D", "", "c@x.com"⟩).length = 2 ∧
    "c@x.com" ∈ (storeCreateOp [⟨"A", "B", "", "a@x.com"⟩]
        ⟨"C", "D", "", "c@x.com"⟩).map Customer.email :=
  ⟨⟨by decide, by decide⟩,
   create_success_refetch
     (doSettle (doFetch initCache) (ListResponse.ok [⟨"A", "B", "", "a@x.com"⟩]))
     [⟨"A", "B", "", "a@x.com"⟩] "C" "D" "" "c@x.com" (by decide) (by decide),
   by decide, by decide⟩

/-- Claim C7, counterexample: two store errors with distinct codes but
the same message produce identical outcomes of `handleCreate`, so the
failure surfaced to the caller cannot carry the store's error code. -/
theorem remote_error_code_dropped :
    (handleCreate "A" "B" "" "a@x.com"
        (MutationResponse.err (some ⟨"409", "duplicate email"⟩))).1
      = (handleCreate "A" "B" "" "a@x.com"
        (MutationResponse.err (some ⟨"500", "duplicate email"⟩))).1 ∧
    ("409" : String) ≠ "500" := by
  constructor
  · decide
  · decide

/-- Claim C7, amended: a failed list fetch surfaces the store's error
body verbatim (code and message); failed create/delete calls surface only
the store's message, falling back to a generic message when the body or
message is absent, and discard the code. -/
theorem error_surfacing :
    ∀ (e : ApiError) (f l b em mail : String),
    createValid f l em = true →
    e.message ≠ "" →
    fetcher (ListResponse.err e) = Except.error e ∧
    (handleCreate f l b em (MutationResponse.err (some e))).1
      = CreateResult.failure e.message ∧
    (handleDelete mail true (MutationResponse.err (some e))).1
      = DeleteResult.failure e.message ∧
    (handleCreate f l b em (MutationResponse.err none)).1
      = CreateResult.failure "Error adding new customer" ∧
    (handleDelete mail true (MutationResponse.err none)).1
      = DeleteResult.failure "Error deleting customer" := by
  intro e f l b em mail hv hm
  refine ⟨rfl, ?_, ?_, ?_, ?_⟩ <;>
    simp [handleCreate, handleDelete, hv, errorMessage, hm]

theorem error_surfacing_witness :
    (createValid "A" "B" "a@x.com" = true ∧
     (ApiError.mk "409" "duplicate email").message ≠ "") ∧
    (fetcher (ListResponse.err ⟨"409", "duplicate email"⟩)
      = Except.error ⟨"409", "duplicate email"⟩ ∧
     (handleCreate "A" "B" "" "a@x.com"
        (MutationResponse.err (some ⟨"409", "duplicate email"⟩))).1
      = CreateResult.failure "duplicate email" ∧
     (handleDelete "a@x.com" true
        (MutationResponse.err (some ⟨"409", "duplicate email"⟩))).1
      = DeleteResult.failure "duplicate email" ∧
     (handleCreate "A" "B" "" "a@x.com" (MutationResponse.err none)).1
      = CreateResult.failure "Error adding new customer" ∧
     (handleDelete "a@x.com" true (MutationResponse.err none)).1
      = DeleteResult.failure "Error deleting customer") :=
  ⟨⟨by decide, by decide⟩,
   error_surfacing ⟨"409", "duplicate email"⟩ "A" "B" "" "a@x.com" "a@x.com"
     (by decide) (by decide)⟩

/-- Claim C8: when a fetch settles with the store's list, the cached
value is exactly that sequence — no reordering, filtering or
deduplication — and the rendered rows preserve the store's order. -/
theorem cache_preserves_store_order :
    ∀ (s : CacheState) (d : Customers),
    s.inflight = true → s.queued = false →
    fetcher (ListResponse.ok d) = Except.ok d ∧
    (doSettle s (ListResponse.ok d)).value = some d ∧
    (doSettle s (ListResponse.ok d)).status = Status.resolved ∧
    (renderRows d).map Prod.snd = d.map Customer.email := by
  intro s d h1 h2
  refine ⟨rfl, ?_, ?_, ?_⟩
  · simp [doSettle, fetcher, h1, h2]
  · simp [doSettle, fetcher, h1, h2]
  · simp [renderRows]

theorem cache_preserves_store_order_witness :
    ((doFetch initCache).inflight = true ∧ (doFetch initCache).queued = false) ∧
    (fetcher (ListResponse.ok
        [⟨"C", "D", "", "c@x.com"⟩, ⟨"A", "B", "", "a@x.com"⟩,
         ⟨"A", "B", "", "a@x.com"⟩])
      = Except.ok
        [⟨"C", "D", "", "c@x.com"⟩, ⟨"A", "B", "", "a@x.com"⟩,
         ⟨"A", "B", "", "a@x.com"⟩] ∧
     (doSettle (doFetch initCache) (ListResponse.ok
        [⟨"C", "D", "", "c@x.com"⟩, ⟨"A", "B", "", "a@x.com"⟩,
         ⟨"A", "B", "", "a@x.com"⟩])).value
      = some
        [⟨"C", "D", "", "c@x.com"⟩, ⟨"A", "B", "", "a@x.com"⟩,
         ⟨"A", "B", "", "a@x.com"⟩] ∧
     (doSettle (doFetch initCache) (ListResponse.ok
        [⟨"C", "D", "", "c@x.com"⟩, ⟨"A", "B", "", "a@x.com"⟩,
         ⟨"A", "B", "", "a@x.com"⟩])).status = Status.resolved ∧
     (renderRows
        [⟨"C", "D", "", "c@x.com"⟩, ⟨"A", "B", "", "a@x.com"⟩,
         ⟨"A", "B", "", "a@x.com"⟩]).map Prod.snd
      = ([⟨"C", "D", "", "c@x.com"⟩, ⟨"A", "B", "", "a@x.com"⟩,
          ⟨"A", "B", "", "a@x.com"⟩] : Customers).map Customer.email) :=
  ⟨⟨by decide, by decide⟩,
   cache_preserves_store_order (doFetch initCache)
     [⟨"C", "D", "", "c@x.com"⟩, ⟨"A", "B", "", "a@x.com"⟩,
      ⟨"A", "B", "", "a@x.com"⟩] (by decide) (by decide)⟩

end CustomerPage
